import Mathlib

/-
Verification of the Mystic core status-handling components:
Mystic::Status::StatusCode, Mystic::Status::Status and Mystic::Status::StatusOr<T>,
shallowly embedded from Include/MysticCore/Status/StatusCode.h,
include/mystic/status/internal/status_internal.hpp and
Include/MysticCore/Status/StatusOr.h.

The StatusOr<T> object state is modelled as a record of its three data members.
The raw payload storage (alignas(T) unsigned char m_Storage[sizeof(T)]) is
modelled as an Option of a (placement-new instance id, current value) pair:
some (i, v) means a T object with identity i is currently constructed in the
storage (its destructor has not run); none means the storage holds no
constructed object.  Construction/destruction side effects of the operations
are recorded as explicit event lists so that destroy-exactly-once properties
can be stated.
-/

set_option autoImplicit false

namespace Mystic

/-- Underlying value of the scoped enum Mystic::Status::StatusCode, which is
backed by uint32_t (StatusCode.h line 29). -/
abbrev StatusCode := Nat

namespace StatusCode

/-- StatusCode::OK = 0. -/
def OK : StatusCode := 0

/-- StatusCode::CANCELLED = 1. -/
def CANCELLED : StatusCode := 1

/-- StatusCode::INVALID_ARGUMENT = 2. -/
def INVALID_ARGUMENT : StatusCode := 2

/-- StatusCode::NOT_FOUND = 3. -/
def NOT_FOUND : StatusCode := 3

/-- StatusCode::ALREADY_EXISTS = 4. -/
def ALREADY_EXISTS : StatusCode := 4

/-- StatusCode::PERMISSION_DENIED = 5. -/
def PERMISSION_DENIED : StatusCode := 5

/-- StatusCode::UNAUTHENTICATED = 6. -/
def UNAUTHENTICATED : StatusCode := 6

/-- StatusCode::OUT_OF_RANGE = 7. -/
def OUT_OF_RANGE : StatusCode := 7

/-- StatusCode::DEADLINE_EXCEEDED = 8. -/
def DEADLINE_EXCEEDED : StatusCode := 8

/-- StatusCode::RESOURCE_EXHAUSTED = 9. -/
def RESOURCE_EXHAUSTED : StatusCode := 9

/-- StatusCode::FAILED_PRECONDITION = 10. -/
def FAILED_PRECONDITION : StatusCode := 10

/-- StatusCode::ABORTED = 11. -/
def ABORTED : StatusCode := 11

/-- StatusCode::UNIMPLEMENTED = 12. -/
def UNIMPLEMENTED : StatusCode := 12

/-- StatusCode::INTERNAL = 13. -/
def INTERNAL : StatusCode := 13

/-- StatusCode::UNAVAILABLE = 14. -/
def UNAVAILABLE : StatusCode := 14

/-- StatusCode::DATA_LOSS = 15. -/
def DATA_LOSS : StatusCode := 15

end StatusCode

/-- Mystic::Status::StatusCodeToString (StatusCode.h lines 58-129): the switch
over the code, with the default branch returning "Unknown".  (The C++ declares
the return type const std::string reference; we model the string value the
switch selects.) -/
def StatusCodeToString (code : StatusCode) : String :=
  match code with
  | 0 => "Ok"
  | 1 => "Cancelled"
  | 2 => "Invalid Argument"
  | 3 => "Not Found"
  | 4 => "Already Exists"
  | 5 => "Permission Denied"
  | 6 => "Unauthenticated"
  | 7 => "Out of Range"
  | 8 => "Deadline Exceeded"
  | 9 => "Resource Exhausted"
  | 10 => "Failed Precondition"
  | 11 => "Aborted"
  | 12 => "Unimplemented"
  | 13 => "Internal"
  | 14 => "Unavailable"
  | 15 => "Data Loss"
  | _ => "Unknown"

/-- Mystic::Status::Status (status_internal.hpp lines 128-205): a code plus a
diagnostic message. -/
structure Status where
  m_Code : StatusCode
  m_Message : String
  deriving DecidableEq, Repr

namespace Status

/-- Default constructor Status() : m_Code(StatusCode::OK); the message is a
default-constructed (empty) std::string. -/
def mkDefault : Status := ⟨StatusCode.OK, ""⟩

/-- Error constructor Status(code, message). -/
def mkWith (code : StatusCode) (message : String) : Status := ⟨code, message⟩

/-- Status::ok(): m_Code == StatusCode::OK. -/
def ok (s : Status) : Bool := s.m_Code == StatusCode.OK

/-- Status::code(). -/
def code (s : Status) : StatusCode := s.m_Code

/-- Status::message(). -/
def message (s : Status) : String := s.m_Message

/-- Static factory Status::OK(): returns Status(). -/
def OK : Status := mkDefault

/-- Status::ToString(): streams "[" << StatusCodeToString(m_Code) << "] " << m_Message. -/
def ToString (s : Status) : String :=
  "[" ++ StatusCodeToString s.m_Code ++ "] " ++ s.m_Message

/-- The state a Status object is left in after std::move: the scalar m_Code is
copied (so its value is preserved), the m_Message string is moved-from (a valid
but unspecified state, modelled as empty). -/
def movedFrom (s : Status) : Status := ⟨s.m_Code, ""⟩

end Status

/-- Convenience function OkStatus() (status_internal.hpp line 212). -/
def OkStatus : Status := Status.OK

/-- Placement-construction / destruction events on the payload storage of a
StatusOr<T>.  ctorT i records a placement-new constructing a T instance with
identity i; dtorT i records an explicit ~T() call on the instance with
identity i. -/
inductive Evt where
  | ctorT (id : Nat)
  | dtorT (id : Nat)
  deriving DecidableEq, Repr

/-- Mystic::Status::StatusOr (StatusOr.h lines 257-535): the three data
members.  m_Storage is some (i, v) when a T instance with identity i and
current value v is constructed in the raw storage, none when the storage holds
no constructed object. -/
structure StatusOr (T : Type) where
  m_Status : Status
  m_IsValue : Bool
  m_Storage : Option (Nat × T)
  deriving DecidableEq, Repr

/-- Outcome of a checked accessor.  Modelled from the spec: the MYSTIC_CHECK /
MYSTIC_DCKECK macros come from MysticCore/Assert/Assert.h, which is not among
the given sources; per the spec they are fatal, non-recoverable contract
checks, so fatal means the check fired and the operation aborts.  undef marks
a read of storage that holds no constructed object (undefined behavior in the
C++); it never arises on states reachable through the public interface. -/
inductive AccessResult (T : Type) where
  | fatal
  | undef
  | val (v : T)
  deriving DecidableEq, Repr

namespace StatusOr

variable {T : Type}

/-- Value constructor StatusOr(T value) (lines 267-269): m_IsValue(true),
m_Status(Status::OK()), placement-new of T in m_Storage.  fresh is the
identity given to the newly constructed instance; the returned list records
the construction event. -/
def fromValue (v : T) (fresh : Nat) : StatusOr T × List Evt :=
  (⟨Status.OK, true, some (fresh, v)⟩, [Evt.ctorT fresh])

/-- In-place constructor StatusOr(in_place_t, Args&&...) (lines 290-295):
m_IsValue(true), m_Status(Status::OK()), placement-new of T in m_Storage from
the forwarded arguments; v is the T value those arguments construct. -/
def inPlace (v : T) (fresh : Nat) : StatusOr T × List Evt :=
  (⟨Status.OK, true, some (fresh, v)⟩, [Evt.ctorT fresh])

/-- Error constructor StatusOr(Status status) (lines 277-279):
m_IsValue(false), m_Status(std::move(status)); no payload is constructed. -/
def fromStatus (st : Status) : StatusOr T :=
  ⟨st, false, none⟩

/-- Whether the MYSTIC_DCKECK(!status.ok()) in the error constructor fires.
The member-init list runs first and moves the parameter into m_Status, so the
condition is evaluated on the moved-from parameter; its scalar m_Code survives
the move, so the condition still tests the original code. -/
def fromStatusDcheckFires (st : Status) : Bool :=
  st.movedFrom.ok

/-- Destructor ~StatusOr() (lines 302-307): if m_IsValue, run ~T() on the
stored instance and set m_IsValue to false.  Returns the post-state of the
members and the destruction events emitted. -/
def dtor (s : StatusOr T) : StatusOr T × List Evt :=
  if s.m_IsValue then
    match s.m_Storage with
    | some (i, _) => (⟨s.m_Status, false, none⟩, [Evt.dtorT i])
    | none => (⟨s.m_Status, false, none⟩, [])
  else (s, [])

/-- Copy constructor StatusOr(const StatusOr&) (lines 313-318):
m_IsValue(other.m_IsValue), m_Status(other.m_Status); if m_IsValue,
placement-new a copy of the source payload. -/
def copyCtor (other : StatusOr T) (fresh : Nat) : StatusOr T × List Evt :=
  if other.m_IsValue then
    match other.m_Storage with
    | some (_, v) => (⟨other.m_Status, true, some (fresh, v)⟩, [Evt.ctorT fresh])
    | none => (⟨other.m_Status, true, none⟩, [])
  else (⟨other.m_Status, false, none⟩, [])

/-- Move constructor StatusOr(StatusOr&&) (lines 324-332):
m_IsValue(other.m_IsValue), m_Status(other.m_Status) — the status is copied,
not moved; if m_IsValue, placement-new a T moved from the source payload and
set other.m_IsValue to false.  The source instance stays constructed
(moved-from); no ~T() runs on it here.  Returns (target, source after,
events). -/
def moveCtor (other : StatusOr T) (fresh : Nat) : StatusOr T × StatusOr T × List Evt :=
  if other.m_IsValue then
    match other.m_Storage with
    | some (i, v) =>
        (⟨other.m_Status, true, some (fresh, v)⟩,
         ⟨other.m_Status, false, some (i, v)⟩,
         [Evt.ctorT fresh])
    | none =>
        (⟨other.m_Status, true, none⟩, ⟨other.m_Status, false, none⟩, [])
  else (⟨other.m_Status, false, none⟩, other, [])

/-- Copy assignment operator=(const StatusOr&) (lines 338-367), for distinct
objects (the self-assignment guard compares addresses and is an identity).
Case 1: both hold a value — T copy assignment into the existing instance.
Case 2: source value over destination status — copy status, placement-new a
copy of the source payload, m_IsValue = true.  Case 3: source status over
destination value — ~T() on the old instance, m_IsValue = false, copy status.
Case 4: both statuses — copy status.  Returns (new destination, events). -/
def copyAssign (s other : StatusOr T) (fresh : Nat) : StatusOr T × List Evt :=
  if other.m_IsValue then
    if s.m_IsValue then
      match s.m_Storage, other.m_Storage with
      | some (i, _), some (_, w) => (⟨s.m_Status, true, some (i, w)⟩, [])
      | _, _ => (s, [])
    else
      match other.m_Storage with
      | some (_, w) => (⟨other.m_Status, true, some (fresh, w)⟩, [Evt.ctorT fresh])
      | none => (⟨other.m_Status, true, none⟩, [])
  else
    if s.m_IsValue then
      match s.m_Storage with
      | some (i, _) => (⟨other.m_Status, false, none⟩, [Evt.dtorT i])
      | none => (⟨other.m_Status, false, none⟩, [])
    else
      (⟨other.m_Status, false, none⟩, [])

/-- Move assignment operator=(StatusOr&&) (lines 373-403), for distinct
objects.  Case 1: both hold a value — T move assignment (the source instance
stays constructed, moved-from), source m_IsValue = false, source status
untouched.  Case 2: source value over destination status — move status,
placement-new a T moved from the source payload, m_IsValue = true, source
m_IsValue = false.  Case 3: source status over destination value — ~T() on
the old instance, m_IsValue = false, move status.  Case 4: both statuses —
move status.  Returns (new destination, source after, events). -/
def moveAssign (s other : StatusOr T) (fresh : Nat) : StatusOr T × StatusOr T × List Evt :=
  if other.m_IsValue then
    if s.m_IsValue then
      match s.m_Storage, other.m_Storage with
      | some (i, _), some (j, w) =>
          (⟨s.m_Status, true, some (i, w)⟩, ⟨other.m_Status, false, some (j, w)⟩, [])
      | _, _ => (s, ⟨other.m_Status, false, other.m_Storage⟩, [])
    else
      match other.m_Storage with
      | some (j, w) =>
          (⟨other.m_Status, true, some (fresh, w)⟩,
           ⟨other.m_Status.movedFrom, false, some (j, w)⟩,
           [Evt.ctorT fresh])
      | none =>
          (⟨other.m_Status, true, none⟩, ⟨other.m_Status.movedFrom, false, none⟩, [])
  else
    if s.m_IsValue then
      match s.m_Storage with
      | some (i, _) =>
          (⟨other.m_Status, false, none⟩,
           ⟨other.m_Status.movedFrom, false, other.m_Storage⟩,
           [Evt.dtorT i])
      | none =>
          (⟨other.m_Status, false, none⟩,
           ⟨other.m_Status.movedFrom, false, other.m_Storage⟩, [])
    else
      (⟨other.m_Status, false, none⟩,
       ⟨other.m_Status.movedFrom, false, other.m_Storage⟩, [])

/-- Accessor ok() (line 415): returns m_IsValue. -/
def ok (s : StatusOr T) : Bool := s.m_IsValue

/-- Accessor status() (line 423): returns m_Status. -/
def status (s : StatusOr T) : Status := s.m_Status

/-- value() const-lvalue overload (lines 431-434): MYSTIC_CHECK(m_Status.ok()),
then return the stored payload. -/
def valueConst (s : StatusOr T) : AccessResult T :=
  if s.m_Status.ok then
    match s.m_Storage with
    | some (_, v) => AccessResult.val v
    | none => AccessResult.undef
  else AccessResult.fatal

/-- value() lvalue overload (lines 442-445): MYSTIC_CHECK(m_Status.ok()), then
return the stored payload. -/
def valueMut (s : StatusOr T) : AccessResult T :=
  if s.m_Status.ok then
    match s.m_Storage with
    | some (_, v) => AccessResult.val v
    | none => AccessResult.undef
  else AccessResult.fatal

/-- value() rvalue overload (lines 454-465): MYSTIC_CHECK(m_Status.ok()), set
m_IsValue to false, move the payload out.  The moved-from instance stays
constructed in the storage.  Returns (result, container after). -/
def valueMove (s : StatusOr T) : AccessResult T × StatusOr T :=
  if s.m_Status.ok then
    match s.m_Storage with
    | some (i, v) => (AccessResult.val v, ⟨s.m_Status, false, some (i, v)⟩)
    | none => (AccessResult.undef, ⟨s.m_Status, false, none⟩)
  else (AccessResult.fatal, s)

/-- operator*() const-lvalue overload (lines 470-473): same body as the
const-lvalue value(). -/
def derefConst (s : StatusOr T) : AccessResult T :=
  if s.m_Status.ok then
    match s.m_Storage with
    | some (_, v) => AccessResult.val v
    | none => AccessResult.undef
  else AccessResult.fatal

/-- operator*() lvalue overload (lines 478-481): same body as the lvalue
value(). -/
def derefMut (s : StatusOr T) : AccessResult T :=
  if s.m_Status.ok then
    match s.m_Storage with
    | some (_, v) => AccessResult.val v
    | none => AccessResult.undef
  else AccessResult.fatal

/-- operator*() rvalue overload (lines 486-489): MYSTIC_CHECK(m_Status.ok()),
then return std::move(value()).  Inside the member body the expression *this
is an lvalue, so value() resolves to the lvalue overload, which only checks
and returns a reference: unlike the rvalue value(), the container is NOT
marked value-less and its members are unchanged.  Returns (result, container
after). -/
def derefMove (s : StatusOr T) : AccessResult T × StatusOr T :=
  if s.m_Status.ok then
    (match s.m_Storage with
     | some (_, v) => AccessResult.val v
     | none => AccessResult.undef, s)
  else (AccessResult.fatal, s)

/-- value_or(default) (lines 511-513): return ok() ? value() : default_value;
the value() call is the const-lvalue overload, including its check. -/
def value_or (s : StatusOr T) (d : T) : AccessResult T :=
  if s.ok then s.valueConst else AccessResult.val d

/-- Explicit operator bool (line 518): returns ok(). -/
def toBool (s : StatusOr T) : Bool := s.ok

end StatusOr

/-- States of a StatusOr<T> object reachable through its public interface,
respecting the documented preconditions (the error constructor is only used
with a non-OK status).  Sources of move construction, move assignment and of
the rvalue value() are reachable states, as are targets constructed or
assigned from reachable states. -/
inductive Reachable {T : Type} : StatusOr T → Prop where
  | fromValue (v : T) (i : Nat) : Reachable (StatusOr.fromValue v i).1
  | inPlace (v : T) (i : Nat) : Reachable (StatusOr.inPlace v i).1
  | fromStatus (st : Status) (h : st.ok = false) :
      Reachable (StatusOr.fromStatus (T := T) st)
  | copyCtor {o : StatusOr T} (i : Nat) (ho : Reachable o) :
      Reachable (StatusOr.copyCtor o i).1
  | moveCtorTarget {o : StatusOr T} (i : Nat) (ho : Reachable o) :
      Reachable (StatusOr.moveCtor o i).1
  | moveCtorSource {o : StatusOr T} (i : Nat) (ho : Reachable o) :
      Reachable (StatusOr.moveCtor o i).2.1
  | copyAssign {s o : StatusOr T} (i : Nat) (hs : Reachable s) (ho : Reachable o) :
      Reachable (StatusOr.copyAssign s o i).1
  | moveAssignTarget {s o : StatusOr T} (i : Nat) (hs : Reachable s) (ho : Reachable o) :
      Reachable (StatusOr.moveAssign s o i).1
  | moveAssignSource {s o : StatusOr T} (i : Nat) (hs : Reachable s) (ho : Reachable o) :
      Reachable (StatusOr.moveAssign s o i).2.1
  | valueMove {s : StatusOr T} (hs : Reachable s) :
      Reachable (StatusOr.valueMove s).2

/-- Whether an event is a payload destruction (a ~T() call). -/
def isDtorEvt : Evt → Bool
  | Evt.dtorT _ => true
  | Evt.ctorT _ => false

/-- Scenario for claim C4: construct StatusOr(0) giving payload instance 0,
move-construct a second StatusOr from it constructing payload instance 1,
then run the destructor of the moved-from source and of the target; the list
collects every payload construction / destruction event in order. -/
def c4ScenarioLog : List Evt :=
  (StatusOr.fromValue (0 : Nat) 0).2 ++
  (StatusOr.moveCtor (StatusOr.fromValue (0 : Nat) 0).1 1).2.2 ++
  (StatusOr.dtor (StatusOr.moveCtor (StatusOr.fromValue (0 : Nat) 0).1 1).2.1).2 ++
  (StatusOr.dtor (StatusOr.moveCtor (StatusOr.fromValue (0 : Nat) 0).1 1).1).2

/-- Modelled from the spec: the StatusCode to display-name table of spec
section 6, including its "(anything else) maps to Unknown" row, written
independently of the switch in StatusCode.h. -/
def specDisplayName (n : Nat) : String :=
  if n = 0 then "Ok"
  else if n = 1 then "Cancelled"
  else if n = 2 then "Invalid Argument"
  else if n = 3 then "Not Found"
  else if n = 4 then "Already Exists"
  else if n = 5 then "Permission Denied"
  else if n = 6 then "Unauthenticated"
  else if n = 7 then "Out of Range"
  else if n = 8 then "Deadline Exceeded"
  else if n = 9 then "Resource Exhausted"
  else if n = 10 then "Failed Precondition"
  else if n = 11 then "Aborted"
  else if n = 12 then "Unimplemented"
  else if n = 13 then "Internal"
  else if n = 14 then "Unavailable"
  else if n = 15 then "Data Loss"
  else "Unknown"

/-- Inductive invariant of reachable StatusOr states: whenever m_IsValue is
set, the stored status is OK and the storage holds a constructed instance. -/
theorem reachable_inv {T : Type} {s : StatusOr T} (h : Reachable s) :
    s.m_IsValue = true → s.m_Status.ok = true ∧ ∃ i v, s.m_Storage = some (i, v) := by
  induction h with
  | fromValue v i =>
      intro _
      exact ⟨rfl, i, v, rfl⟩
  | inPlace v i =>
      intro _
      exact ⟨rfl, i, v, rfl⟩
  | fromStatus st h =>
      intro hc
      simp [StatusOr.fromStatus] at hc
  | copyCtor i ho ih =>
      rename_i o
      intro hc
      by_cases hv : o.m_IsValue = true
      · obtain ⟨hok, a, w, hst⟩ := ih hv
        simp only [StatusOr.copyCtor, hv, if_true, hst]
        exact ⟨hok, i, w, rfl⟩
      · simp only [StatusOr.copyCtor, hv, if_false, Bool.false_eq_true] at hc
  | moveCtorTarget i ho ih =>
      rename_i o
      intro hc
      by_cases hv : o.m_IsValue = true
      · obtain ⟨hok, a, w, hst⟩ := ih hv
        simp only [StatusOr.moveCtor, hv, if_true, hst]
        exact ⟨hok, i, w, rfl⟩
      · simp only [Bool.not_eq_true] at hv
        simp only [StatusOr.moveCtor, hv, Bool.false_eq_true, if_false] at hc
  | moveCtorSource i ho ih =>
      rename_i o
      intro hc
      by_cases hv : o.m_IsValue = true
      · obtain ⟨hok, a, w, hst⟩ := ih hv
        simp [StatusOr.moveCtor, hv, hst] at hc
      · simp only [Bool.not_eq_true] at hv
        simp [StatusOr.moveCtor, hv] at hc
  | copyAssign i hs ho ihs iho =>
      rename_i s o
      intro hc
      by_cases hov : o.m_IsValue = true
      · obtain ⟨hook, a, w, host⟩ := iho hov
        by_cases hsv : s.m_IsValue = true
        · obtain ⟨hsok, b, u, hsst⟩ := ihs hsv
          simp only [StatusOr.copyAssign, hov, hsv, if_true, hsst, host]
          exact ⟨hsok, b, w, rfl⟩
        · simp only [Bool.not_eq_true] at hsv
          simp only [StatusOr.copyAssign, hov, hsv, if_true, Bool.false_eq_true,
            if_false, host]
          exact ⟨hook, i, w, rfl⟩
      · simp only [Bool.not_eq_true] at hov
        by_cases hsv : s.m_IsValue = true
        · obtain ⟨hsok, b, u, hsst⟩ := ihs hsv
          simp [StatusOr.copyAssign, hov, hsv, hsst] at hc
        · simp only [Bool.not_eq_true] at hsv
          simp [StatusOr.copyAssign, hov, hsv] at hc
  | moveAssignTarget i hs ho ihs iho =>
      rename_i s o
      intro hc
      by_cases hov : o.m_IsValue = true
      · obtain ⟨hook, a, w, host⟩ := iho hov
        by_cases hsv : s.m_IsValue = true
        · obtain ⟨hsok, b, u, hsst⟩ := ihs hsv
          simp only [StatusOr.moveAssign, hov, hsv, if_true, hsst, host]
          exact ⟨hsok, b, w, rfl⟩
        · simp only [Bool.not_eq_true] at hsv
          simp only [StatusOr.moveAssign, hov, hsv, if_true, Bool.false_eq_true,
            if_false, host]
          exact ⟨hook, i, w, rfl⟩
      · simp only [Bool.not_eq_true] at hov
        by_cases hsv : s.m_IsValue = true
        · obtain ⟨hsok, b, u, hsst⟩ := ihs hsv
          simp [StatusOr.moveAssign, hov, hsv, hsst] at hc
        · simp only [Bool.not_eq_true] at hsv
          simp [StatusOr.moveAssign, hov, hsv] at hc
  | moveAssignSource i hs ho ihs iho =>
      rename_i s o
      intro hc
      by_cases hov : o.m_IsValue = true
      · obtain ⟨hook, a, w, host⟩ := iho hov
        by_cases hsv : s.m_IsValue = true
        · obtain ⟨hsok, b, u, hsst⟩ := ihs hsv
          simp [StatusOr.moveAssign, hov, hsv, hsst, host] at hc
        · simp only [Bool.not_eq_true] at hsv
          simp [StatusOr.moveAssign, hov, hsv, host] at hc
      · simp only [Bool.not_eq_true] at hov
        by_cases hsv : s.m_IsValue = true
        · obtain ⟨hsok, b, u, hsst⟩ := ihs hsv
          simp [StatusOr.moveAssign, hov, hsv, hsst] at hc
        · simp only [Bool.not_eq_true] at hsv
          simp [StatusOr.moveAssign, hov, hsv] at hc
  | valueMove hs ih =>
      rename_i s
      intro hc
      by_cases hok : s.m_Status.ok = true
      · rcases hst : s.m_Storage with _ | ⟨a, w⟩
        · simp [StatusOr.valueMove, hok, hst] at hc
        · simp [StatusOr.valueMove, hok, hst] at hc
      · simp only [Bool.not_eq_true] at hok
        simp only [StatusOr.valueMove, hok, Bool.false_eq_true, if_false] at hc
        obtain ⟨hok2, hex⟩ := ih hc
        simp [hok] at hok2

/-- Claim C1, counterexample: copy-constructing from a moved-from StatusOr is
a reachable state that holds neither a constructed value (the storage is
empty, has_value is false) nor a non-OK status (the stored status is OK), so
the exactly-one (never-neither) invariant fails as stated. -/
theorem C1_neither_counterexample :
    Reachable ((StatusOr.copyCtor (StatusOr.moveCtor (StatusOr.fromValue (0 : Nat) 0).1 1).2.1 2).1) ∧
    ((StatusOr.copyCtor (StatusOr.moveCtor (StatusOr.fromValue (0 : Nat) 0).1 1).2.1 2).1).ok = false ∧
    (((StatusOr.copyCtor (StatusOr.moveCtor (StatusOr.fromValue (0 : Nat) 0).1 1).2.1 2).1).status).ok = true ∧
    ((StatusOr.copyCtor (StatusOr.moveCtor (StatusOr.fromValue (0 : Nat) 0).1 1).2.1 2).1).m_Storage = none :=
  ⟨Reachable.copyCtor 2 (Reachable.moveCtorSource 1 (Reachable.fromValue 0 0)),
   by decide, by decide, by decide⟩

/-- Claim C1 (amended): on every reachable state at most one of a held value
and a non-OK status is live — a container reporting a value never carries a
non-OK status; after moving the value out the container may hold neither. -/
theorem C1_never_both {T : Type} {s : StatusOr T} (h : Reachable s) :
    ¬(s.ok = true ∧ s.status.ok = false) := by
  rintro ⟨h1, h2⟩
  obtain ⟨hok, -⟩ := reachable_inv h h1
  simp only [StatusOr.status] at h2
  rw [hok] at h2
  cases h2

/-- Witness for C1_never_both at a value-constructed StatusOr. -/
theorem C1_never_both_wit :
    ¬(((StatusOr.fromValue (7 : Nat) 0).1).ok = true ∧
      ((StatusOr.fromValue (7 : Nat) 0).1).status.ok = false) :=
  C1_never_both (Reachable.fromValue 7 0)

/-- Claim C2, counterexample: a moved-from StatusOr (here after the rvalue
value() extracted the payload) is reachable, reports ok() = false, and yet
calling value() on it does not trigger the fatal check, because the check
tests m_Status.ok() and the stored status of a moved-from container is OK. -/
theorem C2_check_counterexample :
    Reachable ((StatusOr.valueMove (StatusOr.fromValue (5 : Nat) 0).1).2) ∧
    ((StatusOr.valueMove (StatusOr.fromValue (5 : Nat) 0).1).2).ok = false ∧
    ((StatusOr.valueMove (StatusOr.fromValue (5 : Nat) 0).1).2).valueConst ≠ AccessResult.fatal :=
  ⟨Reachable.valueMove (Reachable.fromValue 5 0), by decide, by decide⟩

/-- Claim C2 (amended): each value() overload returns the held value whenever
ok() holds, and the fatal contract check fires if and only if the stored
status is non-OK — equivalently, it fires on every status-holding container,
but not on a moved-from container (which has ok() = false yet an OK status). -/
theorem C2_value_accessors {T : Type} {s : StatusOr T} (h : Reachable s) :
    (s.ok = true → ∃ i v, s.m_Storage = some (i, v) ∧
        s.valueConst = AccessResult.val v ∧ s.valueMut = AccessResult.val v ∧
        (s.valueMove).1 = AccessResult.val v) ∧
    (s.valueConst = AccessResult.fatal ↔ s.status.ok = false) ∧
    (s.valueMut = AccessResult.fatal ↔ s.status.ok = false) ∧
    ((s.valueMove).1 = AccessResult.fatal ↔ s.status.ok = false) := by
  refine ⟨?_, ?_, ?_, ?_⟩
  · intro hv
    obtain ⟨hok, i, v, hst⟩ := reachable_inv h hv
    exact ⟨i, v, hst, by simp [StatusOr.valueConst, hok, hst],
      by simp [StatusOr.valueMut, hok, hst], by simp [StatusOr.valueMove, hok, hst]⟩
  · by_cases hok : s.m_Status.ok = true
    · rcases hst : s.m_Storage with _ | ⟨i, v⟩ <;>
        simp [StatusOr.valueConst, StatusOr.status, hok, hst]
    · simp only [Bool.not_eq_true] at hok
      simp [StatusOr.valueConst, StatusOr.status, hok]
  · by_cases hok : s.m_Status.ok = true
    · rcases hst : s.m_Storage with _ | ⟨i, v⟩ <;>
        simp [StatusOr.valueMut, StatusOr.status, hok, hst]
    · simp only [Bool.not_eq_true] at hok
      simp [StatusOr.valueMut, StatusOr.status, hok]
  · by_cases hok : s.m_Status.ok = true
    · rcases hst : s.m_Storage with _ | ⟨i, v⟩ <;>
        simp [StatusOr.valueMove, StatusOr.status, hok, hst]
    · simp only [Bool.not_eq_true] at hok
      simp [StatusOr.valueMove, StatusOr.status, hok]

/-- Witness for C2_value_accessors at a value-constructed StatusOr. -/
theorem C2_value_accessors_wit :
    ((StatusOr.fromValue (7 : Nat) 3).1.ok = true → ∃ i v,
        (StatusOr.fromValue (7 : Nat) 3).1.m_Storage = some (i, v) ∧
        (StatusOr.fromValue (7 : Nat) 3).1.valueConst = AccessResult.val v ∧
        (StatusOr.fromValue (7 : Nat) 3).1.valueMut = AccessResult.val v ∧
        ((StatusOr.fromValue (7 : Nat) 3).1.valueMove).1 = AccessResult.val v) ∧
    ((StatusOr.fromValue (7 : Nat) 3).1.valueConst = AccessResult.fatal ↔
        (StatusOr.fromValue (7 : Nat) 3).1.status.ok = false) ∧
    ((StatusOr.fromValue (7 : Nat) 3).1.valueMut = AccessResult.fatal ↔
        (StatusOr.fromValue (7 : Nat) 3).1.status.ok = false) ∧
    (((StatusOr.fromValue (7 : Nat) 3).1.valueMove).1 = AccessResult.fatal ↔
        (StatusOr.fromValue (7 : Nat) 3).1.status.ok = false) :=
  C2_value_accessors (Reachable.fromValue 7 3)

/-- Claim C6: constructing a StatusOr from a value and then calling value()
returns that value, ok() is true and status().ok() is true. -/
theorem C6_round_trip {T : Type} (v : T) (i : Nat) :
    (StatusOr.fromValue v i).1.valueConst = AccessResult.val v ∧
    (StatusOr.fromValue v i).1.ok = true ∧
    ((StatusOr.fromValue v i).1.status).ok = true :=
  ⟨rfl, rfl, rfl⟩

/-- Claim C10: after the payload is moved out of a value-holding StatusOr by
the rvalue value() or by move construction, the moved-from container reports
ok() = false while status().ok() is still true. -/
theorem C10_moved_from {T : Type} {s : StatusOr T} (h : Reachable s)
    (hv : s.ok = true) (fresh : Nat) :
    ((s.valueMove).2.ok = false ∧ (s.valueMove).2.status.ok = true) ∧
    ((StatusOr.moveCtor s fresh).2.1.ok = false ∧
     (StatusOr.moveCtor s fresh).2.1.status.ok = true) := by
  obtain ⟨hok, i, v, hst⟩ := reachable_inv h hv
  have hv2 : s.m_IsValue = true := hv
  refine ⟨⟨?_, ?_⟩, ⟨?_, ?_⟩⟩ <;>
    simp [StatusOr.valueMove, StatusOr.moveCtor, StatusOr.ok, StatusOr.status,
      hok, hst, hv2]

/-- Claim C3: copy-assignment quadrants.  Status over value: exactly one
destruction of the old payload instance, ok() becomes false and the status is
the source's.  Value over status: exactly one new payload construction, a
copy of the source's value, ok() becomes true. -/
theorem C3_copy_assign_quadrants {T : Type} (s o : StatusOr T) (fresh i j : Nat) (v w : T) :
    (s.m_IsValue = true → s.m_Storage = some (i, v) → o.m_IsValue = false →
      (StatusOr.copyAssign s o fresh).2 = [Evt.dtorT i] ∧
      (StatusOr.copyAssign s o fresh).1.ok = false ∧
      (StatusOr.copyAssign s o fresh).1.status = o.status) ∧
    (s.m_IsValue = false → o.m_IsValue = true → o.m_Storage = some (j, w) →
      (StatusOr.copyAssign s o fresh).2 = [Evt.ctorT fresh] ∧
      (StatusOr.copyAssign s o fresh).1.ok = true ∧
      (StatusOr.copyAssign s o fresh).1.m_Storage = some (fresh, w) ∧
      (StatusOr.copyAssign s o fresh).1.status = o.status) := by
  constructor
  · intro hs hst ho
    simp [StatusOr.copyAssign, hs, hst, ho, StatusOr.ok, StatusOr.status]
  · intro hs ho host
    simp [StatusOr.copyAssign, hs, ho, host, StatusOr.ok, StatusOr.status]

/-- Witness for C3_copy_assign_quadrants: a status-holding StatusOr copied
over a value-holding one. -/
theorem C3_copy_assign_quadrants_wit :
    (StatusOr.copyAssign (StatusOr.fromValue (4 : Nat) 0).1
        (StatusOr.fromStatus (Status.mkWith 3 "m")) 5).2 = [Evt.dtorT 0] ∧
    (StatusOr.copyAssign (StatusOr.fromValue (4 : Nat) 0).1
        (StatusOr.fromStatus (Status.mkWith 3 "m")) 5).1.ok = false ∧
    (StatusOr.copyAssign (StatusOr.fromValue (4 : Nat) 0).1
        (StatusOr.fromStatus (Status.mkWith 3 "m")) 5).1.status =
      (StatusOr.fromStatus (T := Nat) (Status.mkWith 3 "m")).status :=
  (C3_copy_assign_quadrants (StatusOr.fromValue (4 : Nat) 0).1
    (StatusOr.fromStatus (Status.mkWith 3 "m")) 5 0 0 4 4).1 rfl rfl rfl

/-- Claim C4, counterexample: in the move-construction scenario the payload
instance constructed in the source (id 0) is destructed zero times — the
moved-from container's destructor skips it and nothing else ever destroys it —
so "each constructed payload instance is destructed exactly once" fails. -/
theorem C4_exactly_once_counterexample :
    c4ScenarioLog = [Evt.ctorT 0, Evt.ctorT 1, Evt.dtorT 1] ∧
    List.count (Evt.ctorT 0) c4ScenarioLog = 1 ∧
    List.count (Evt.dtorT 0) c4ScenarioLog = 0 := by decide

/-- Claim C4 (amended): each of the three moving-from operations — move
construction, being the source of a move assignment, and the rvalue value() —
leaves the moved-from container with ok() = false, and its destructor then
destroys nothing, so it cannot affect the moved-to target's value and no
payload instance is ever destructed twice; the instance carrying the value
into the target is destructed exactly once, by the target's own destructor.
The payload instance left behind in the moved-from container, however, is
never destructed at all. -/
theorem C4_move_no_double_destroy {T : Type} {o : StatusOr T} (h : Reachable o)
    (hv : o.ok = true) (fresh : Nat) :
    ∀ i v, o.m_Storage = some (i, v) →
      (StatusOr.moveCtor o fresh).1.ok = true ∧
      (StatusOr.moveCtor o fresh).1.m_Storage = some (fresh, v) ∧
      (StatusOr.moveCtor o fresh).2.2 = [Evt.ctorT fresh] ∧
      (StatusOr.moveCtor o fresh).2.1.ok = false ∧
      (StatusOr.dtor (StatusOr.moveCtor o fresh).2.1).2 = [] ∧
      (StatusOr.dtor (StatusOr.moveCtor o fresh).1).2 = [Evt.dtorT fresh] ∧
      (o.valueMove).2.ok = false ∧
      (StatusOr.dtor (o.valueMove).2).2 = [] ∧
      (∀ s2 : StatusOr T, Reachable s2 →
        (StatusOr.moveAssign s2 o fresh).2.1.ok = false ∧
        (StatusOr.dtor (StatusOr.moveAssign s2 o fresh).2.1).2 = [] ∧
        (StatusOr.moveAssign s2 o fresh).1.ok = true ∧
        ((StatusOr.moveAssign s2 o fresh).1.m_Storage).map Prod.snd = some v ∧
        List.countP isDtorEvt (StatusOr.moveAssign s2 o fresh).2.2 = 0 ∧
        List.countP isDtorEvt (StatusOr.dtor (StatusOr.moveAssign s2 o fresh).1).2 = 1) := by
  intro i v hst
  obtain ⟨hok, -⟩ := reachable_inv h hv
  have hv2 : o.m_IsValue = true := hv
  refine ⟨?_, ?_, ?_, ?_, ?_, ?_, ?_, ?_, ?_⟩
  any_goals
    simp [StatusOr.moveCtor, StatusOr.valueMove, StatusOr.dtor, StatusOr.ok,
      hv2, hok, hst]
  intro s2 hs2
  by_cases hsv : s2.m_IsValue = true
  · obtain ⟨hsok, b, u, hsst⟩ := reachable_inv hs2 hsv
    refine ⟨?_, ?_, ?_, ?_, ?_, ?_⟩ <;>
      simp [StatusOr.moveAssign, StatusOr.dtor, StatusOr.ok, hv2, hok, hst,
        hsv, hsst, isDtorEvt]
  · simp only [Bool.not_eq_true] at hsv
    refine ⟨?_, ?_, ?_, ?_, ?_, ?_⟩ <;>
      simp [StatusOr.moveAssign, StatusOr.dtor, StatusOr.ok, hv2, hok, hst,
        hsv, isDtorEvt]

/-- Witness for C4_move_no_double_destroy at a value-constructed StatusOr,
with a status-holding StatusOr as the move-assignment target. -/
theorem C4_move_no_double_destroy_wit :
    (StatusOr.moveCtor (StatusOr.fromValue (9 : Nat) 0).1 1).1.ok = true ∧
    (StatusOr.moveCtor (StatusOr.fromValue (9 : Nat) 0).1 1).1.m_Storage = some (1, 9) ∧
    (StatusOr.moveCtor (StatusOr.fromValue (9 : Nat) 0).1 1).2.2 = [Evt.ctorT 1] ∧
    (StatusOr.moveCtor (StatusOr.fromValue (9 : Nat) 0).1 1).2.1.ok = false ∧
    (StatusOr.dtor (StatusOr.moveCtor (StatusOr.fromValue (9 : Nat) 0).1 1).2.1).2 = [] ∧
    (StatusOr.dtor (StatusOr.moveCtor (StatusOr.fromValue (9 : Nat) 0).1 1).1).2 = [Evt.dtorT 1] ∧
    ((StatusOr.fromValue (9 : Nat) 0).1.valueMove).2.ok = false ∧
    (StatusOr.dtor ((StatusOr.fromValue (9 : Nat) 0).1.valueMove).2).2 = [] ∧
    ((StatusOr.moveAssign (StatusOr.fromStatus (Status.mkWith 3 "m"))
        (StatusOr.fromValue (9 : Nat) 0).1 1).2.1.ok = false ∧
     (StatusOr.dtor (StatusOr.moveAssign (StatusOr.fromStatus (Status.mkWith 3 "m"))
        (StatusOr.fromValue (9 : Nat) 0).1 1).2.1).2 = [] ∧
     (StatusOr.moveAssign (StatusOr.fromStatus (Status.mkWith 3 "m"))
        (StatusOr.fromValue (9 : Nat) 0).1 1).1.ok = true ∧
     ((StatusOr.moveAssign (StatusOr.fromStatus (Status.mkWith 3 "m"))
        (StatusOr.fromValue (9 : Nat) 0).1 1).1.m_Storage).map Prod.snd = some 9 ∧
     List.countP isDtorEvt (StatusOr.moveAssign (StatusOr.fromStatus (Status.mkWith 3 "m"))
        (StatusOr.fromValue (9 : Nat) 0).1 1).2.2 = 0 ∧
     List.countP isDtorEvt (StatusOr.dtor (StatusOr.moveAssign
        (StatusOr.fromStatus (Status.mkWith 3 "m"))
        (StatusOr.fromValue (9 : Nat) 0).1 1).1).2 = 1) := by
  have H := C4_move_no_double_destroy (Reachable.fromValue (9 : Nat) 0) rfl 1 0 9 rfl
  exact ⟨H.1, H.2.1, H.2.2.1, H.2.2.2.1, H.2.2.2.2.1, H.2.2.2.2.2.1,
    H.2.2.2.2.2.2.1, H.2.2.2.2.2.2.2.1,
    H.2.2.2.2.2.2.2.2 (StatusOr.fromStatus (Status.mkWith 3 "m"))
      (Reachable.fromStatus (Status.mkWith 3 "m") (by decide))⟩

/-- Claim C5: constructing a StatusOr from a Status fires the contract check
exactly when the status is OK (the check condition survives the move of the
parameter because the scalar code member is copied); for a non-OK status the
result has ok() = false and status() equal to the original. -/
theorem C5_from_status {T : Type} (st : Status) (h : st.ok = false) :
    StatusOr.fromStatusDcheckFires st = false ∧
    (StatusOr.fromStatus (T := T) st).ok = false ∧
    (StatusOr.fromStatus (T := T) st).status = st ∧
    ∀ st2 : Status, st2.ok = true → StatusOr.fromStatusDcheckFires st2 = true := by
  refine ⟨h, rfl, rfl, ?_⟩
  intro st2 h2
  exact h2

/-- Witness for C5_from_status at Status(NOT_FOUND, "missing key"). -/
theorem C5_from_status_wit :
    StatusOr.fromStatusDcheckFires (Status.mkWith StatusCode.NOT_FOUND "missing key") = false ∧
    (StatusOr.fromStatus (T := Nat) (Status.mkWith StatusCode.NOT_FOUND "missing key")).ok = false ∧
    (StatusOr.fromStatus (T := Nat) (Status.mkWith StatusCode.NOT_FOUND "missing key")).status =
      Status.mkWith StatusCode.NOT_FOUND "missing key" ∧
    ∀ st2 : Status, st2.ok = true → StatusOr.fromStatusDcheckFires st2 = true :=
  C5_from_status (T := Nat) (Status.mkWith StatusCode.NOT_FOUND "missing key") (by decide)

/-- Claim C7: for every code value (including everything outside the defined
enumeration range) the name lookup used by Status::ToString() agrees with the
display-name table of the spec, and ToString() renders as
"[CodeName] message". -/
theorem C7_display_names :
    (∀ n : Nat, StatusCodeToString n = specDisplayName n) ∧
    (∀ st : Status, st.ToString = "[" ++ StatusCodeToString st.code ++ "] " ++ st.message) := by
  constructor
  · intro n
    match n with
    | 0 => rfl
    | 1 => rfl
    | 2 => rfl
    | 3 => rfl
    | 4 => rfl
    | 5 => rfl
    | 6 => rfl
    | 7 => rfl
    | 8 => rfl
    | 9 => rfl
    | 10 => rfl
    | 11 => rfl
    | 12 => rfl
    | 13 => rfl
    | 14 => rfl
    | 15 => rfl
    | n + 16 => rfl
  · intro st
    rfl

/-- Claim C8: evaluation of the code at the failing input.  On a
value-holding StatusOr the rvalue-qualified dereference returns the held
value but leaves the container completely unchanged — ok() stays true —
whereas the rvalue-qualified value() leaves ok() = false, so the dereference
does not mirror value(): inside operator* the call value() resolves to the
lvalue overload and m_IsValue is never cleared (and operator-> returns a
pointer where its declared type is a reference, so it is ill-formed). -/
theorem C8_rvalue_deref_code_eval :
    ((StatusOr.fromValue (5 : Nat) 0).1.derefMove).1 = AccessResult.val 5 ∧
    ((StatusOr.fromValue (5 : Nat) 0).1.derefMove).2.ok = true ∧
    ((StatusOr.fromValue (5 : Nat) 0).1.derefMove).2 = (StatusOr.fromValue (5 : Nat) 0).1 ∧
    ((StatusOr.fromValue (5 : Nat) 0).1.valueMove).2.ok = false := by
  decide

/-- Claim C9: value_or returns the held value when ok() and the default when
not, and on every reachable state it never triggers the fatal check (when
ok() holds the stored status is OK, so the inner value() check passes; when
ok() is false value() is never called). -/
theorem C9_value_or {T : Type} {s : StatusOr T} (h : Reachable s) (d : T) :
    (∀ i v, s.m_Storage = some (i, v) → s.ok = true → s.value_or d = AccessResult.val v) ∧
    (s.ok = false → s.value_or d = AccessResult.val d) ∧
    s.value_or d ≠ AccessResult.fatal := by
  refine ⟨?_, ?_, ?_⟩
  · intro i v hst hv
    obtain ⟨hok, -⟩ := reachable_inv h hv
    have hv2 : s.m_IsValue = true := hv
    simp [StatusOr.value_or, StatusOr.ok, hv2, StatusOr.valueConst, hok, hst]
  · intro hv
    have hv2 : s.m_IsValue = false := hv
    simp [StatusOr.value_or, StatusOr.ok, hv2]
  · by_cases hv : s.m_IsValue = true
    · obtain ⟨hok, i, v, hst⟩ := reachable_inv h hv
      simp [StatusOr.value_or, StatusOr.ok, hv, StatusOr.valueConst, hok, hst]
    · simp only [Bool.not_eq_true] at hv
      simp [StatusOr.value_or, StatusOr.ok, hv]

/-- Witness for C9_value_or at a status-holding StatusOr. -/
theorem C9_value_or_wit :
    (StatusOr.fromStatus (T := Nat) (Status.mkWith 3 "missing")).value_or 42 =
      AccessResult.val 42 ∧
    (StatusOr.fromStatus (T := Nat) (Status.mkWith 3 "missing")).value_or 42 ≠
      AccessResult.fatal :=
  ⟨(C9_value_or (Reachable.fromStatus (Status.mkWith 3 "missing") (by decide)) 42).2.1 rfl,
   (C9_value_or (Reachable.fromStatus (Status.mkWith 3 "missing") (by decide)) 42).2.2⟩

/-- Witness for C10_moved_from at a value-constructed StatusOr. -/
theorem C10_moved_from_wit :
    (((StatusOr.fromValue (3 : Nat) 0).1.valueMove).2.ok = false ∧
     ((StatusOr.fromValue (3 : Nat) 0).1.valueMove).2.status.ok = true) ∧
    ((StatusOr.moveCtor (StatusOr.fromValue (3 : Nat) 0).1 1).2.1.ok = false ∧
     (StatusOr.moveCtor (StatusOr.fromValue (3 : Nat) 0).1 1).2.1.status.ok = true) :=
  C10_moved_from (Reachable.fromValue 3 0) rfl 1

end Mystic
